import Mathlib

/-!
# Shallow embedding of the booking_platform availability & booking engine

This file embeds, in Lean 4, the parts of the `booking_platform` Django
repository that its design specification makes claims about:

* `core/utils.py` — `check_provider_availability` (the availability probe)
  and `check_booking_overlap` (the admission gate used at booking creation);
* `core/views.py` — `BookingViewSet.perform_create`, `_handle_recurrence`,
  `get_recurrence_delta`, and `reschedule_booking`;
* `core/models.py` — `Service.calculate_price`, `Booking.calculate_price`,
  `Booking.save`, `Review.clean`, `Review.save`, and the model fields these
  functions read.

Modelling conventions:

* Instants (`datetime`) and durations (`timedelta`) are integers counting
  minutes; every quantity in the spec's scenarios is a whole number of
  minutes, so one-minute resolution loses nothing the claims need.
  `d.date()` becomes floor-division by 1440 (minutes per day) and
  `d.time()` becomes the remainder; instants count minutes since the Unix
  epoch, so day number 0 is a Thursday, which fixes `strftime("%A")`.
* `Decimal` money amounts are exact rationals (`ℚ`); the claims' example
  amounts are all exactly representable.
* Django querysets over a table become `List` predicates over the record
  lists held in a `DB` structure; `filter(...).exists()` becomes `List.any`,
  `get(id=...)` becomes `List.find?`.
* `transaction.atomic()` is given its documented semantics: an exception
  escaping the block rolls every write made inside it back, so a failing
  `perform_create` leaves the database unchanged.
-/

namespace BookingPlatform

/-- Minutes per day; `d.date()` on an instant measured in minutes. -/
def dateOf (t : Int) : Int := t / 1440

/-- Wall-clock `d.time()` as a minute-of-day in `[0, 1440)`. -/
def minuteOfDay (t : Int) : Int := t % 1440

/-- Computes `parsed_time.strftime("%A")`: the weekday name of an instant.  Minutes count
from the Unix epoch, whose day 0 (1970-01-01) was a Thursday. -/
def dayName (t : Int) : String :=
  match ((t / 1440) % 7).toNat with
  | 0 => "Thursday"
  | 1 => "Friday"
  | 2 => "Saturday"
  | 3 => "Sunday"
  | 4 => "Monday"
  | 5 => "Tuesday"
  | _ => "Wednesday"

/-- The `Booking.STATUS_CHOICES` of `core/models.py`. -/
inductive BookingStatus
  | pending
  | confirmed
  | cancelled
  | completed
deriving DecidableEq, Repr

/-- The fields of `core.models.Service` that the engine reads.
`duration` and `buffer_time` are minutes; prices are exact decimals. -/
structure Service where
  id : Nat
  base_price : ℚ
  unit_price : ℚ
  duration : Int
  buffer_time : Int
  is_active : Bool
deriving DecidableEq, Repr

/-- One `core.models.ServiceProviderAvailability` row: a weekly window. -/
structure WeeklyAvailability where
  service_provider : Nat
  day_of_week : String
  start_time : Int
  end_time : Int
deriving DecidableEq, Repr

/-- One `core.models.AvailabilityException` row: a blackout date. -/
structure AvailabilityException where
  service_provider : Nat
  date : Int
deriving DecidableEq, Repr

/-- The fields of `core.models.Booking` that the engine reads or writes. -/
structure Booking where
  user : Nat
  service_provider : Nat
  service : Nat
  appointment_time : Int
  duration : Option Int
  date : Option Int
  total_price : ℚ
  status : BookingStatus
deriving DecidableEq, Repr

/-- The database tables the embedded functions touch. -/
structure DB where
  availabilities : List WeeklyAvailability
  exceptions : List AvailabilityException
  services : List Service
  bookings : List Booking
deriving DecidableEq, Repr

/-- Outcome of `check_provider_availability`: the `(is_available, reason)`
head of the tuple it returns.  The status code and the returned
`parsed_time`/`service` objects are determined by the constructor. -/
structure AvailResult where
  available : Bool
  reason : String
deriving DecidableEq, Repr

/-- Embeds `core/utils.py::check_provider_availability`.

`provider_id`/`service_id` are `Option Nat` (`None`/falsy ⇒ missing) and the
appointment-time string is represented by its parse result
(`none` ⇒ `parse_datetime` failed).  Mirrors the source's four steps in
order: parameter presence, time parsing, the weekly-window query, the
service lookup, then the buffer-overlap query
`appointment_time__range=(buffer_start, buffer_end)` — a Django `__range`
filter, inclusive at both endpoints.  The source consults no other table:
in particular it never queries `AvailabilityException` and never reads
`Service.is_active`. -/
def check_provider_availability (db : DB) (provider_id service_id : Option Nat)
    (parsed : Option Int) : AvailResult :=
  match provider_id, service_id with
  | some pid, some sid =>
    match parsed with
    | none => ⟨false, "Invalid appointment_time format."⟩
    | some t =>
      let availability_exists := db.availabilities.any fun a =>
        a.service_provider = pid && a.day_of_week = dayName t &&
        a.start_time ≤ minuteOfDay t && minuteOfDay t ≤ a.end_time
      if !availability_exists then
        ⟨false, "Provider not available at this time."⟩
      else
        match db.services.find? (fun s => s.id = sid) with
        | none => ⟨false, "Service does not exist."⟩
        | some service =>
          let buffer_start := t - service.buffer_time
          let buffer_end := t + service.duration + service.buffer_time
          let overlap := db.bookings.any fun b =>
            b.service_provider = pid &&
            buffer_start ≤ b.appointment_time && b.appointment_time ≤ buffer_end
          if overlap then ⟨false, "Overlapping booking found."⟩
          else ⟨true, "Time slot is available."⟩
  | _, _ => ⟨false, "Missing required parameters."⟩

/-- Embeds `core/utils.py::check_booking_overlap`: the admission gate's overlap
test.  Filters the provider's bookings with
`appointment_time__lt = buffer_end` and
`appointment_time__gt = buffer_start - service_duration - buffer_time`,
both strict. -/
def check_booking_overlap (bookings : List Booking) (service_provider : Nat)
    (appointment_time : Int) (service : Service) : Bool :=
  let buffer_time := service.buffer_time
  let service_duration := service.duration
  let buffer_start := appointment_time - buffer_time
  let buffer_end := appointment_time + service_duration + buffer_time
  bookings.any fun b =>
    b.service_provider = service_provider &&
    b.appointment_time < buffer_end &&
    buffer_start - service_duration - buffer_time < b.appointment_time

/-- The stored string of a `BookingStatus`, as in `STATUS_CHOICES`. -/
def statusStr : BookingStatus → String
  | .pending => "pending"
  | .confirmed => "confirmed"
  | .cancelled => "cancelled"
  | .completed => "completed"

/-- Embeds `core/models.py::Service.calculate_price`.  `duration = none` is the
`duration=None` default, falling back to the service's own duration.
`Decimal(duration.total_seconds()) / Decimal(3600)` on a duration of `d`
minutes is the exact rational `d / 60`. -/
def Service.calculate_price (s : Service) (duration : Option Int) : ℚ :=
  let d := duration.getD s.duration
  let duration_hours : ℚ := (60 * d : Int) / (3600 : ℚ)
  s.base_price + s.unit_price * duration_hours

/-- Embeds `core/models.py::Booking.calculate_price`: uses the booking's own
duration if set, otherwise the service's duration if truthy, otherwise
`timedelta(0)`. -/
def Booking.calculate_price (b : Booking) (s : Service) : ℚ :=
  let d : Int :=
    match b.duration with
    | some d => d
    | none => if s.duration ≠ 0 then s.duration else 0
  let duration_hours : ℚ := (60 * d : Int) / (3600 : ℚ)
  s.base_price + s.unit_price * duration_hours

/-- Embeds `core/models.py::Booking.save` minus the SQL write: `if not
self.duration` (falsy: `None` or `timedelta(0)`) falls back to the
service's duration, `if not self.date` derives the date from the
appointment time, and `total_price` is recomputed from the (now updated)
duration.  `s` is the booking's service row. -/
def Booking.saveModel (s : Service) (b : Booking) : Booking :=
  let b := if b.duration = none ∨ b.duration = some 0 then
    { b with duration := some s.duration } else b
  let b := if b.date = none then
    { b with date := some (dateOf b.appointment_time) } else b
  { b with total_price := b.calculate_price s }

/-- A fresh `Booking.objects.create(user=..., service_provider=...,
service=..., appointment_time=...)`: all other fields take their model
defaults and `Booking.save` runs. -/
def newBooking (user provider sid : Nat) (t : Int) (s : Service) : Booking :=
  Booking.saveModel s
    { user := user, service_provider := provider, service := sid,
      appointment_time := t, duration := none, date := none,
      total_price := 0, status := .pending }

/-- The fields of `core.models.Review` the validation logic reads; the
attached booking (if any) is inlined. -/
structure Review where
  user : Nat
  service_provider : Nat
  rating : Int
  booking : Option Booking
deriving DecidableEq, Repr

/-- Embeds `core/models.py::Review.clean`: with a booking attached, reject unless
the booking is completed, then reject unless the reviewer is the booking's
user. -/
def Review.clean (r : Review) : Except String Unit :=
  match r.booking with
  | none => .ok ()
  | some b =>
    if b.status ≠ .completed then
      .error ("Cannot review a booking with status \"" ++ statusStr b.status ++
        "\". Booking must be completed.")
    else if r.user ≠ b.user then
      .error "Only the booking user can create a review."
    else .ok ()

/-- Embeds `core/models.py::Review.save`: run `clean`, then persist the row (the
subsequent provider-rating update does not touch the review table). -/
def Review.saveModel (r : Review) (reviews : List Review) :
    Except String (List Review) :=
  match r.clean with
  | .error e => .error e
  | .ok _ => .ok (reviews ++ [r])

/-- The recurrence payload `request.data.get("recurrence")` of
`_handle_recurrence`: frequency string, `int(...get("interval", 1))`, and
the optional end date (a day number; the source compares ISO date strings,
which for valid ISO dates is the same order). -/
structure RecurrenceData where
  frequency : String
  interval : Int
  end_date : Option Int
deriving DecidableEq, Repr

/-- Embeds `core/views.py::BookingViewSet.get_recurrence_delta`, in minutes. -/
def get_recurrence_delta (frequency : String) (interval : Int) :
    Except String Int :=
  if frequency = "daily" then .ok (1440 * interval)
  else if frequency = "weekly" then .ok (10080 * interval)
  else if frequency = "monthly" then .ok (30 * 1440 * interval)
  else .error "Invalid recurrence frequency."

/-- An aborted booking creation: the `ValidationError` message together
with the occurrence rows that had already been inserted inside the open
transaction when the error was raised (all of them rolled back). -/
structure Abort where
  message : String
  created : List Booking
deriving DecidableEq, Repr

/-- The `while` loop of `core/views.py::BookingViewSet._handle_recurrence`:
guard `current.date() <= end_date`; advance by the frequency delta; stop
when the advanced date passes `end_date`; raise on overlap (against the
whole booking table, which inside the transaction already holds the seed
and the earlier occurrences); otherwise insert the occurrence.  `fuel`
bounds the iteration count of the shallow embedding; every theorem below
supplies enough of it. -/
def expandGo (db_bookings : List Booking) (user provider sid : Nat)
    (service : Service) (freq : String) (interval : Int) (end_date : Int) :
    Nat → Int → List Booking → Except Abort (List Booking)
  | 0, _, created => .error ⟨"loop fuel exhausted", created⟩
  | fuel + 1, current, created =>
    if dateOf current ≤ end_date then
      match get_recurrence_delta freq interval with
      | .error m => .error ⟨m, created⟩
      | .ok delta =>
        let next := current + delta
        if end_date < dateOf next then .ok created
        else if check_booking_overlap (db_bookings ++ created) provider next
            service then
          .error ⟨"A recurring appointment conflicts with an existing booking.",
            created⟩
        else
          expandGo db_bookings user provider sid service freq interval end_date
            fuel next (created ++ [newBooking user provider sid next service])
    else .ok created

/-- Embeds `core/views.py::BookingViewSet._handle_recurrence`: nothing to do
without a recurrence payload; reject a payload without `end_date`;
otherwise persist the `Recurrence` row (not modelled — no claim reads it)
and expand from the seed's appointment time. -/
def handle_recurrence (db_bookings : List Booking) (user provider sid : Nat)
    (service : Service) (seed_time : Int) (recurrence : Option RecurrenceData)
    (fuel : Nat) : Except Abort (List Booking) :=
  match recurrence with
  | none => .ok []
  | some rd =>
    match rd.end_date with
    | none => .error ⟨"Recurrence requires an end_date.", []⟩
    | some ed =>
      expandGo db_bookings user provider sid service rd.frequency rd.interval
        ed fuel seed_time []

/-- Embeds `core/views.py::BookingViewSet.perform_create` after serializer
validation: run `check_booking_overlap` and reject on conflict; then,
inside `transaction.atomic()`, insert the seed booking and expand any
recurrence.  An `.ok` carries the committed database; an `.error` carries
the `ValidationError` — the transaction rolled back, so the caller's
database is unchanged (see `persistedState`). -/
def perform_create (db : DB) (user provider : Nat) (service : Service)
    (appointment_time : Int) (recurrence : Option RecurrenceData)
    (fuel : Nat) : Except Abort DB :=
  if check_booking_overlap db.bookings provider appointment_time service then
    .error ⟨"This time slot is unavailable due to buffer constraints.", []⟩
  else
    let seed := newBooking user provider service.id appointment_time service
    match handle_recurrence (db.bookings ++ [seed]) user provider service.id
        service appointment_time recurrence fuel with
    | .ok occs => .ok { db with bookings := db.bookings ++ [seed] ++ occs }
    | .error a => .error a

/-- The database as the caller sees it after `perform_create`: the
committed state on success, the original state on a rolled-back error. -/
def persistedState (db : DB) (r : Except Abort DB) : DB :=
  match r with
  | .ok db' => db'
  | .error _ => db

/-- Embeds `core/views.py::BookingViewSet.reschedule_booking`: look the
booking up, demand an `appointment_time` in the payload, parse it, then
just overwrite `appointment_time` and save — no availability or overlap
check.  The payload is `none` when absent and `some none` when unparsable;
the result is the booking table plus the HTTP status and detail message. -/
def reschedule_booking (bookings : List Booking) (i : Nat) (s : Service)
    (new_time : Option (Option Int)) : List Booking × Nat × String :=
  match bookings[i]? with
  | none => (bookings, 404, "Not found.")
  | some booking =>
    match new_time with
    | none => (bookings, 400, "No appointment_time provided.")
    | some none => (bookings, 400, "Invalid datetime format.")
    | some (some t) =>
      let updated := Booking.saveModel s { booking with appointment_time := t }
      (bookings.set i updated, 200, "Booking rescheduled successfully.")

/-- The price formula exactly as the specification words it:
`price = base_price + unit_price × (duration_seconds / 3600)`, in exact
decimal arithmetic, for a duration given in minutes. -/
def priceFormula (base unit : ℚ) (minutes : Int) : ℚ :=
  base + unit * ((60 * minutes : Int) / (3600 : ℚ))

/-- Rewrites every booking's status by `g`, leaving all other fields
alone; used to state that the overlap checks never read `status`. -/
def setStatuses (g : Booking → BookingStatus) (l : List Booking) :
    List Booking :=
  l.map fun b => { b with status := g b }

/-! ### Concrete fixtures

Day number 4 is the Monday 1970-01-05; minute 6360 is 10:00 on that day,
6435 is 11:15, 6436 is 11:16.  `exService` is the spec's running example:
base 50.00, unit 25.00 per hour, duration 1 h, buffer 15 min. -/

/-- A service with duration 1 h, buffer 15 min, base 50.00, unit 25.00. -/
def exService : Service := ⟨1, 50, 25, 60, 15, true⟩

/-- A persisted booking of provider `p` at instant `t` for `exService`. -/
def bookingAt (p : Nat) (t : Int) : Booking :=
  ⟨7, p, 1, t, some 60, some (dateOf t), 75, .pending⟩

/-- Provider 1 open all Monday, one booking at Monday 10:00. -/
def exDb1 : DB :=
  ⟨[⟨1, "Monday", 0, 1439⟩], [], [exService], [bookingAt 1 6360]⟩

/-- Provider 1 open all Monday, a blackout exception on that very Monday
(day 4), no bookings. -/
def exDb3 : DB := ⟨[⟨1, "Monday", 0, 1439⟩], [⟨1, 4⟩], [exService], []⟩

/-- A booking that collides with the second weekly occurrence of a series
seeded at minute 6360 (second occurrence at 26520; this sits 30 minutes
later, inside its protected window). -/
def blockerBooking : Booking := ⟨9, 1, 1, 26550, some 60, some 18, 75, .pending⟩

/-- Database for the recurrence-abort scenario: open calendar, the
blocking booking already present. -/
def exDb4 : DB := ⟨[⟨1, "Monday", 0, 1439⟩], [], [exService], [blockerBooking]⟩

/-- The example service with `is_active = False`. -/
def inactiveService : Service := ⟨1, 50, 25, 60, 15, false⟩

/-- Open calendar, an inactive service, and an empty booking table. -/
def exDb7 : DB := ⟨[⟨1, "Monday", 0, 1439⟩], [], [inactiveService], []⟩

/-- Database with only the admission-gate scenario's existing booking. -/
def exDb2 : DB := ⟨[], [], [exService], [bookingAt 1 6360]⟩

/-- A completed booking owned by user 7, for the review scenarios. -/
def completedBooking : Booking := ⟨7, 1, 1, 6360, some 60, some 4, 75, .completed⟩

/-- A review of a completed booking by the booking's own user. -/
def okReview : Review := ⟨7, 1, 5, some completedBooking⟩

/-- A review whose booking is still pending. -/
def pendingReview : Review := ⟨7, 1, 5, some (bookingAt 1 6360)⟩

/-- Two bookings of provider 1 at the same instant: rescheduling index 0
onto index 1's slot is an overlap the endpoint must nevertheless accept. -/
def clashBookings : List Booking := [bookingAt 1 6360, bookingAt 1 20160]

/-! ### Helper lemmas -/

theorem newBooking_appointment_time (u p sid : Nat) (t : Int) (s : Service) :
    (newBooking u p sid t s).appointment_time = t := rfl

theorem saveModel_appointment_time (s : Service) (b : Booking) :
    (Booking.saveModel s b).appointment_time = b.appointment_time := by
  unfold Booking.saveModel
  split <;> (dsimp only; split <;> rfl)

/-- Advancing an instant by whole weeks keeps its weekday name. -/
theorem dayName_add_week_mul (t k : Int) : dayName (t + 10080 * k) = dayName t := by
  unfold dayName
  have h : (t + 10080 * k) / 1440 = t / 1440 + 7 * k := by omega
  rw [h, Int.add_mul_emod_self_left]

/-- A candidate at least a week after every existing booking clears the
admission gate whenever `duration + 2·buffer ≤ one week`. -/
theorem check_booking_overlap_spaced (bookings : List Booking) (p : Nat)
    (cand : Int) (s : Service)
    (hs : s.duration + 2 * s.buffer_time ≤ 10080)
    (h : ∀ b ∈ bookings, b.appointment_time ≤ cand - 10080) :
    check_booking_overlap bookings p cand s = false := by
  simp only [check_booking_overlap, List.any_eq_false]
  intro b hb
  have hbt := h b hb
  simp only [Bool.and_eq_true, decide_eq_true_eq, not_and]
  intro _ _
  omega

/-- One non-final iteration of the weekly expansion loop. -/
theorem expandGo_weekly_step (dbb : List Booking) (u p sid : Nat) (s : Service)
    (ed : Int) (fuel : Nat) (current : Int) (created : List Booking)
    (h1 : dateOf current ≤ ed) (h2 : ¬ ed < dateOf (current + 10080))
    (h3 : check_booking_overlap (dbb ++ created) p (current + 10080) s = false) :
    expandGo dbb u p sid s "weekly" 1 ed (fuel + 1) current created =
      expandGo dbb u p sid s "weekly" 1 ed fuel (current + 10080)
        (created ++ [newBooking u p sid (current + 10080) s]) := by
  simp [expandGo, get_recurrence_delta, h1, h2, h3]

/-- The final iteration of the weekly expansion loop: the advanced date
passes the end date, so the loop breaks and commits what it created. -/
theorem expandGo_weekly_stop (dbb : List Booking) (u p sid : Nat) (s : Service)
    (ed : Int) (fuel : Nat) (current : Int) (created : List Booking)
    (h1 : dateOf current ≤ ed) (h2 : ed < dateOf (current + 10080)) :
    expandGo dbb u p sid s "weekly" 1 ed (fuel + 1) current created =
      .ok created := by
  simp [expandGo, get_recurrence_delta, h1, h2]

/-! ### The claims -/

/-- C1: in the availability probe, once the candidate time parses, the
provider's calendar is open and the service exists, an existing booking of
that provider is reported as a conflict (`available = false`, reason
"Overlapping booking found.") if and only if its `appointment_time` lies
inside the protected window
`[candidateStart - buffer, candidateStart + duration + buffer]`, both
endpoints inclusive; in particular, with an existing booking at Monday
10:00 for a service with duration 1 h and buffer 15 min, a candidate at
11:16 the same day is not a conflict and the slot is reported available. -/
theorem C1_overlap_probe_window_iff (db : DB) (pid sid : Nat) (t : Int)
    (s : Service)
    (hs : db.services.find? (fun x => x.id = sid) = some s)
    (hav : db.availabilities.any (fun a =>
      a.service_provider = pid && a.day_of_week = dayName t &&
      a.start_time ≤ minuteOfDay t && minuteOfDay t ≤ a.end_time) = true) :
    (check_provider_availability db (some pid) (some sid) (some t) =
        ⟨false, "Overlapping booking found."⟩ ↔
      ∃ b ∈ db.bookings, b.service_provider = pid ∧
        t - s.buffer_time ≤ b.appointment_time ∧
        b.appointment_time ≤ t + s.duration + s.buffer_time)
    ∧ check_provider_availability exDb1 (some 1) (some 1) (some 6436) =
        ⟨true, "Time slot is available."⟩ := by
  refine ⟨?_, by decide⟩
  simp only [check_provider_availability, hav, hs, Bool.not_true,
    Bool.false_eq_true, if_false]
  by_cases h : db.bookings.any (fun b =>
      b.service_provider = pid &&
      t - s.buffer_time ≤ b.appointment_time &&
      b.appointment_time ≤ t + s.duration + s.buffer_time) = true
  · simp only [h, if_true, true_iff]
    rcases List.any_eq_true.mp h with ⟨b, hb, hpred⟩
    simp only [Bool.and_eq_true, decide_eq_true_eq] at hpred
    exact ⟨b, hb, hpred.1.1, hpred.1.2, hpred.2⟩
  · simp only [h, if_false]
    constructor
    · intro hcontra
      cases hcontra
    · rintro ⟨b, hb, h1, h2, h3⟩
      exact absurd (List.any_eq_true.mpr ⟨b, hb, by
        simp only [Bool.and_eq_true, decide_eq_true_eq]
        exact ⟨⟨h1, h2⟩, h3⟩⟩) h

/-- Witness for C1 at the boundary scenario: booking at Monday 10:00,
candidate 11:16, duration 1 h, buffer 15 min — not reported as a
conflict. -/
theorem C1_witness :
    exDb1.services.find? (fun x => x.id = 1) = some exService ∧
    check_provider_availability exDb1 (some 1) (some 1) (some 6436) ≠
      ⟨false, "Overlapping booking found."⟩ := by
  refine ⟨rfl, fun h => ?_⟩
  have h2 := ((C1_overlap_probe_window_iff exDb1 1 1 6436 exService rfl rfl).1).mp h
  exact absurd h2 (by decide)

/-- C2: at booking creation, with one existing booking at `T` for the same
provider and a service of duration 1 h and buffer 15 min, a candidate at
`T + 50 min` is rejected with the validation error "This time slot is
unavailable due to buffer constraints.", while a candidate at `T + 2 h`
passes the gate and is persisted. -/
theorem C2_admission_gate_buffer_scenario (db : DB) (b : Booking) (s : Service)
    (u : Nat) (fuel : Nat)
    (hb : db.bookings = [b]) (hd : s.duration = 60) (hbuf : s.buffer_time = 15) :
    perform_create db u b.service_provider s (b.appointment_time + 50) none fuel =
      .error ⟨"This time slot is unavailable due to buffer constraints.", []⟩
    ∧ check_booking_overlap db.bookings b.service_provider
        (b.appointment_time + 120) s = false
    ∧ perform_create db u b.service_provider s (b.appointment_time + 120) none fuel =
        .ok { db with bookings := db.bookings ++
          [newBooking u b.service_provider s.id (b.appointment_time + 120) s] } := by
  have h1 : check_booking_overlap db.bookings b.service_provider
      (b.appointment_time + 50) s = true := by
    simp [check_booking_overlap, hb, hd, hbuf]
    omega
  have h2 : check_booking_overlap db.bookings b.service_provider
      (b.appointment_time + 120) s = false := by
    simp [check_booking_overlap, hb, hd, hbuf]
    omega
  refine ⟨?_, h2, ?_⟩
  · simp [perform_create, h1]
  · simp [perform_create, h2, handle_recurrence]

/-- Witness for C2: the concrete existing booking at Monday 10:00 makes
10:50 rejected for buffer reasons. -/
theorem C2_witness :
    perform_create exDb2 7 (bookingAt 1 6360).service_provider exService
      ((bookingAt 1 6360).appointment_time + 50) none 0 =
      .error ⟨"This time slot is unavailable due to buffer constraints.", []⟩ :=
  (C2_admission_gate_buffer_scenario exDb2 (bookingAt 1 6360) exService 7 0
    rfl rfl rfl).1

/-- Counterexample to C3: a provider with an `AvailabilityException` on the
candidate's very date is still reported available — the probe never
consults the exceptions table. -/
theorem C3_counterexample :
    (∃ e ∈ exDb3.exceptions, e.service_provider = 1 ∧ e.date = dateOf 6360) ∧
    check_provider_availability exDb3 (some 1) (some 1) (some 6360) =
      ⟨true, "Time slot is available."⟩ := by decide

/-- C3 (amended): the availability check ignores `AvailabilityException`
rows entirely — replacing the exceptions table by anything at all never
changes its result, so an exception date does not close the provider. -/
theorem C3_exceptions_ignored (db : DB) (excs : List AvailabilityException)
    (pidO sidO : Option Nat) (tO : Option Int) :
    check_provider_availability { db with exceptions := excs } pidO sidO tO =
      check_provider_availability db pidO sidO tO := rfl

/-- Counterexample to C4: seeding a weekly series at Monday 10:00 (minute
6360) against a booking that blocks only the second occurrence raises the
validation error "A recurring appointment conflicts with an existing
booking." with the first occurrence (at minute 16440) already inserted —
yet the persisted state is the original database: the `transaction.atomic`
block rolls occurrence 1 back, so it does not remain persisted. -/
theorem C4_counterexample :
    perform_create exDb4 7 1 exService 6360 (some ⟨"weekly", 1, some 32⟩) 10 =
      .error ⟨"A recurring appointment conflicts with an existing booking.",
        [newBooking 7 1 1 16440 exService]⟩
    ∧ persistedState exDb4
        (perform_create exDb4 7 1 exService 6360
          (some ⟨"weekly", 1, some 32⟩) 10) = exDb4
    ∧ newBooking 7 1 1 16440 exService ∉
        (persistedState exDb4
          (perform_create exDb4 7 1 exService 6360
            (some ⟨"weekly", 1, some 32⟩) 10)).bookings := by
  refine ⟨rfl, rfl, ?_⟩
  decide

/-- C4 (amended): when recurrence expansion aborts with a validation error
(in particular the conflict error "A recurring appointment conflicts with
an existing booking." carried in `a.message`), `perform_create` surfaces
exactly that error and — because the whole expansion runs inside the same
`transaction.atomic()` block as the seed — the persisted database is the
original one: neither the seed nor occurrences `1..k-1` remain. -/
theorem C4_conflict_aborts_and_rolls_back (db : DB) (u p : Nat) (s : Service)
    (t : Int) (rec : Option RecurrenceData) (fuel : Nat) (a : Abort)
    (hno : check_booking_overlap db.bookings p t s = false)
    (hrec : handle_recurrence (db.bookings ++ [newBooking u p s.id t s]) u p s.id
      s t rec fuel = .error a) :
    perform_create db u p s t rec fuel = .error a ∧
    persistedState db (perform_create db u p s t rec fuel) = db := by
  have hpc : perform_create db u p s t rec fuel = .error a := by
    simp [perform_create, hno, hrec]
  exact ⟨hpc, by simp [persistedState, hpc]⟩

/-- Witness for C4 (amended): the concrete abort scenario of the
counterexample, driven through the amended theorem. -/
theorem C4_witness :
    check_booking_overlap exDb4.bookings 1 6360 exService = false ∧
    persistedState exDb4
      (perform_create exDb4 7 1 exService 6360
        (some ⟨"weekly", 1, some 32⟩) 10) = exDb4 :=
  ⟨by decide,
    (C4_conflict_aborts_and_rolls_back exDb4 7 1 exService 6360
      (some ⟨"weekly", 1, some 32⟩) 10
      ⟨"A recurring appointment conflicts with an existing booking.",
        [newBooking 7 1 1 16440 exService]⟩ (by decide) rfl).2⟩

/-- C5: expanding a weekly, interval-1 rule whose end date is exactly
4 weeks (28 days) after a Monday seed, with no conflicting booking (the
table holds just the seed and the service fits in a week with its
buffers), creates exactly 4 additional bookings at `t + 10080`,
`t + 20160`, `t + 30240`, `t + 40320` minutes — each exactly 7 days after
the previous one, all on Monday; and the frequency deltas are
`interval` days for daily, `interval` weeks (7 × 1440 × interval minutes)
for weekly, and `interval × 30` days for monthly. -/
theorem C5_weekly_expansion_four_occurrences (t : Int) (u p sid : Nat)
    (s : Service) (b : Booking)
    (hsum : s.duration + 2 * s.buffer_time ≤ 10080)
    (hmon : dayName t = "Monday")
    (hbt : b.appointment_time = t) :
    handle_recurrence [b] u p sid s t
        (some ⟨"weekly", 1, some (dateOf t + 28)⟩) 6 =
      .ok [newBooking u p sid (t + 10080) s, newBooking u p sid (t + 20160) s,
           newBooking u p sid (t + 30240) s, newBooking u p sid (t + 40320) s]
    ∧ dayName (t + 10080) = "Monday" ∧ dayName (t + 20160) = "Monday"
    ∧ dayName (t + 30240) = "Monday" ∧ dayName (t + 40320) = "Monday"
    ∧ (∀ i : Int, get_recurrence_delta "daily" i = .ok (1440 * i))
    ∧ (∀ i : Int, get_recurrence_delta "weekly" i = .ok (7 * 1440 * i))
    ∧ (∀ i : Int, get_recurrence_delta "monthly" i = .ok (30 * 1440 * i)) := by
  have hw : ∀ k : Int, dayName (t + 10080 * k) = "Monday" := fun k =>
    (dayName_add_week_mul t k).trans hmon
  refine ⟨?_,
    by have := hw 1; rw [show t + 10080 * 1 = t + 10080 by ring] at this; exact this,
    by have := hw 2; rw [show t + 10080 * 2 = t + 20160 by ring] at this; exact this,
    by have := hw 3; rw [show t + 10080 * 3 = t + 30240 by ring] at this; exact this,
    by have := hw 4; rw [show t + 10080 * 4 = t + 40320 by ring] at this; exact this,
    fun i => by simp [get_recurrence_delta],
    fun i => by
      unfold get_recurrence_delta
      rw [if_neg (by decide), if_pos rfl]
      norm_num,
    fun i => by
      unfold get_recurrence_delta
      rw [if_neg (by decide), if_neg (by decide), if_pos rfl]⟩
  have mem1 : ∀ x ∈ [b], x.appointment_time ≤ (t + 10080) - 10080 := by
    intro x hx; simp at hx; subst hx; omega
  have mem2 : ∀ x ∈ [b] ++ [newBooking u p sid (t + 10080) s],
      x.appointment_time ≤ (t + 10080 + 10080) - 10080 := by
    intro x hx; simp at hx
    rcases hx with h | h <;> subst h <;>
      simp only [newBooking_appointment_time, hbt] <;> omega
  show expandGo [b] u p sid s "weekly" 1 (dateOf t + 28) 6 t [] = _
  rw [expandGo_weekly_step _ _ _ _ _ _ _ _ _ (by unfold dateOf; omega)
    (by unfold dateOf; omega)
    (check_booking_overlap_spaced _ _ _ _ hsum (by simpa using mem1))]
  rw [expandGo_weekly_step _ _ _ _ _ _ _ _ _ (by unfold dateOf; omega)
    (by unfold dateOf; omega)
    (check_booking_overlap_spaced _ _ _ _ hsum (by simpa using mem2))]
  rw [expandGo_weekly_step _ _ _ _ _ _ _ _ _ (by unfold dateOf; omega)
    (by unfold dateOf; omega)
    (check_booking_overlap_spaced _ _ _ _ hsum (by
      intro x hx; simp at hx
      rcases hx with h | h | h <;> subst h <;>
        simp only [newBooking_appointment_time, hbt] <;> omega))]
  rw [expandGo_weekly_step _ _ _ _ _ _ _ _ _ (by unfold dateOf; omega)
    (by unfold dateOf; omega)
    (check_booking_overlap_spaced _ _ _ _ hsum (by
      intro x hx; simp at hx
      rcases hx with h | h | h | h <;> subst h <;>
        simp only [newBooking_appointment_time, hbt] <;> omega))]
  rw [expandGo_weekly_stop _ _ _ _ _ _ _ _ _ (by unfold dateOf; omega)
    (by unfold dateOf; omega)]
  simp only [List.nil_append]
  refine congrArg Except.ok ?_
  refine congrArg₂ List.cons rfl ?_
  refine congrArg₂ List.cons (by congr 1; ring) ?_
  refine congrArg₂ List.cons (by congr 1; ring) ?_
  refine congrArg₂ List.cons (by congr 1; ring) rfl

/-- Witness for C5: the series seeded at Monday 10:00 (minute 6360) with
the running example service produces exactly the four Monday occurrences. -/
theorem C5_witness :
    exService.duration + 2 * exService.buffer_time ≤ 10080 ∧
    dayName 6360 = "Monday" ∧
    handle_recurrence [bookingAt 1 6360] 7 1 1 exService 6360
        (some ⟨"weekly", 1, some (dateOf 6360 + 28)⟩) 6 =
      .ok [newBooking 7 1 1 (6360 + 10080) exService,
           newBooking 7 1 1 (6360 + 20160) exService,
           newBooking 7 1 1 (6360 + 30240) exService,
           newBooking 7 1 1 (6360 + 40320) exService] :=
  ⟨by decide, by decide,
    (C5_weekly_expansion_four_occurrences 6360 7 1 1 exService
      (bookingAt 1 6360) (by decide) (by decide) rfl).1⟩

/-- C6: for every service and duration, the computed price is exactly
`base_price + unit_price × (duration_seconds / 3600)` in exact decimal
arithmetic; with no duration supplied, the booking's own duration is used
if set, else the service's nominal duration; in particular base 50.00,
unit 25.00 gives exactly 75.00 for 1 h and exactly 100.00 for 2 h. -/
theorem C6_price_formula :
    (∀ (b : Booking) (s : Service), Booking.calculate_price b s =
      priceFormula s.base_price s.unit_price (b.duration.getD s.duration))
    ∧ (∀ (s : Service) (d : Option Int), Service.calculate_price s d =
      priceFormula s.base_price s.unit_price (d.getD s.duration))
    ∧ Service.calculate_price ⟨1, 50, 25, 60, 15, true⟩ none = 75
    ∧ Service.calculate_price ⟨1, 50, 25, 60, 15, true⟩ (some 120) = 100 := by
  refine ⟨?_, ?_, by norm_num [Service.calculate_price], by
    norm_num [Service.calculate_price]⟩
  · intro b s
    unfold Booking.calculate_price priceFormula
    cases hb : b.duration with
    | none =>
      simp only [Option.getD]
      by_cases h : s.duration = 0 <;> simp [h]
    | some d => simp
  · intro s d
    cases d <;> simp [Service.calculate_price, priceFormula]

/-- Counterexample to C7: a service with `is_active = False`, an open
calendar and an empty booking table is reported `available = true` — the
availability probe never reads `is_active`. -/
theorem C7_counterexample :
    inactiveService.is_active = false ∧ exDb7.bookings = [] ∧
    check_provider_availability exDb7 (some 1) (some 1) (some 6360) =
      ⟨true, "Time slot is available."⟩ := by decide

/-- C7 (amended): the availability probe does not consult `is_active`: an
inactive service that exists is still reported available whenever the
calendar is open and no booking overlaps; only a missing service row is
rejected (reason "Service does not exist."). -/
theorem C7_inactive_service_reported_available (db : DB) (pid sid : Nat)
    (t : Int) (s : Service)
    (hs : db.services.find? (fun x => x.id = sid) = some s)
    (hinactive : s.is_active = false)
    (hav : db.availabilities.any (fun a =>
      a.service_provider = pid && a.day_of_week = dayName t &&
      a.start_time ≤ minuteOfDay t && minuteOfDay t ≤ a.end_time) = true)
    (hnoov : db.bookings.any (fun b =>
      b.service_provider = pid &&
      t - s.buffer_time ≤ b.appointment_time &&
      b.appointment_time ≤ t + s.duration + s.buffer_time) = false) :
    check_provider_availability db (some pid) (some sid) (some t) =
      ⟨true, "Time slot is available."⟩ := by
  simp only [check_provider_availability, hav, hs, hnoov, Bool.not_true,
    Bool.false_eq_true, if_false]

/-- Witness for C7 (amended): the concrete inactive-service database. -/
theorem C7_witness :
    inactiveService.is_active = false ∧
    check_provider_availability exDb7 (some 1) (some 1) (some 6360) =
      ⟨true, "Time slot is available."⟩ :=
  ⟨rfl, C7_inactive_service_reported_available exDb7 1 1 6360 inactiveService
    rfl rfl rfl rfl⟩

/-- C8: saving a review attached to a booking errors exactly when the
booking is not completed or the reviewer is not the booking's user; a
review by the booking's own user on a completed booking passes the checks
and is appended to the review table. -/
theorem C8_review_validation (r : Review) (b : Booking) (reviews : List Review)
    (hb : r.booking = some b) :
    ((∃ e, Review.saveModel r reviews = .error e) ↔
      (b.status ≠ .completed ∨ r.user ≠ b.user))
    ∧ (b.status = .completed → r.user = b.user →
        Review.saveModel r reviews = .ok (reviews ++ [r])) := by
  unfold Review.saveModel Review.clean
  rw [hb]
  constructor
  · by_cases h1 : b.status = .completed <;> by_cases h2 : r.user = b.user <;>
      simp [h1, h2]
  · intro h1 h2
    simp [h1, h2]

/-- Witness for C8: reviewing a pending booking errors; the booking's own
user reviewing the completed booking is saved. -/
theorem C8_witness :
    (∃ e, Review.saveModel pendingReview [] = .error e) ∧
    Review.saveModel okReview [] = .ok [okReview] :=
  ⟨(C8_review_validation pendingReview (bookingAt 1 6360) [] rfl).1.mpr
    (Or.inl (by decide)),
   (C8_review_validation okReview completedBooking [] rfl).2 rfl rfl⟩

/-- C9: neither overlap check filters on booking status — rewriting every
booking's status arbitrarily (for instance marking everything cancelled or
completed) changes neither `check_booking_overlap` nor the availability
probe's verdict, so a cancelled booking blocks slots exactly as a pending
one does. -/
theorem C9_status_ignored_in_overlap_checks (g : Booking → BookingStatus)
    (db : DB) (pidO sidO : Option Nat) (tO : Option Int)
    (p : Nat) (t : Int) (s : Service) :
    check_booking_overlap (setStatuses g db.bookings) p t s =
      check_booking_overlap db.bookings p t s
    ∧ check_provider_availability
        { db with bookings := setStatuses g db.bookings } pidO sidO tO =
      check_provider_availability db pidO sidO tO := by
  constructor
  · simp [check_booking_overlap, setStatuses, List.any_map, Function.comp_def]
  · unfold check_provider_availability
    cases pidO <;> cases sidO <;> try rfl
    cases tO <;> try rfl
    simp [setStatuses, List.any_map, Function.comp_def]

/-- C10: rescheduling fails only on a missing or unparsable new time (HTTP
400); for every existing booking and every parseable new time it returns
200 and overwrites `appointment_time` — no calendar, exception, or
conflict check is run, the rest of the booking table being arbitrary. -/
theorem C10_reschedule_no_conflict_check (bookings : List Booking) (i : Nat)
    (s : Service) (b : Booking) (hb : bookings[i]? = some b) :
    reschedule_booking bookings i s none =
      (bookings, 400, "No appointment_time provided.")
    ∧ reschedule_booking bookings i s (some none) =
      (bookings, 400, "Invalid datetime format.")
    ∧ ∀ t : Int, reschedule_booking bookings i s (some (some t)) =
        (bookings.set i (Booking.saveModel s { b with appointment_time := t }),
          200, "Booking rescheduled successfully.")
        ∧ (Booking.saveModel s
            { b with appointment_time := t }).appointment_time = t := by
  refine ⟨?_, ?_, ?_⟩
  · simp [reschedule_booking, hb]
  · simp [reschedule_booking, hb]
  · intro t
    exact ⟨by simp [reschedule_booking, hb], saveModel_appointment_time s _⟩

/-- Witness for C10: moving booking 0 onto the exact slot of another
booking of the same provider still succeeds with HTTP 200. -/
theorem C10_witness :
    reschedule_booking clashBookings 0 exService (some (some 20160)) =
      (clashBookings.set 0
        (Booking.saveModel exService
          { bookingAt 1 6360 with appointment_time := 20160 }),
        200, "Booking rescheduled successfully.") :=
  ((C10_reschedule_no_conflict_check clashBookings 0 exService
    (bookingAt 1 6360) rfl).2.2 20160).1

end BookingPlatform
